import Mathlib

/-!
Shallow embedding of the AAEE (Autonomous Algorithmic Evolution Engine)
configuration and data-model code, together with the parts of the strategy
evolution engine that the repository's spec describes but whose source is
not present (the visible `data_models.py` breaks off inside
`TradingIndicator.from_dict`; the `Strategy` class, lifecycle state machine,
fitness evaluator, genetic operators and evolution loop are absent).
Definitions taken from the source say so; definitions reconstructed from the
spec carry a doc comment starting `Modelled from the spec:`.

Numeric values (`float` in the source) are modelled as `Rat`; machine
integers as `Int`/`Nat` (no overflow-relevant arithmetic occurs).
Python exceptions are modelled with `Except String`.
-/

/-- From `src/data_models.py` (`class StrategyStatus(Enum)`): status of a
trading strategy in the evolution pipeline. -/
inductive StrategyStatus where
  | generated
  | backtesting
  | backtest_complete
  | live_testing
  | active
  | archived
  | failed
deriving DecidableEq, Repr

/-- The enum's string value, as in the source (`GENERATED = "generated"`, ...). -/
def StrategyStatus.value : StrategyStatus → String
  | .generated => "generated"
  | .backtesting => "backtesting"
  | .backtest_complete => "backtest_complete"
  | .live_testing => "live_testing"
  | .active => "active"
  | .archived => "archived"
  | .failed => "failed"

/-- Inverse lookup of `StrategyStatus.value` (Python `StrategyStatus(v)`). -/
def StrategyStatus.fromValue : String → Option StrategyStatus
  | "generated" => some .generated
  | "backtesting" => some .backtesting
  | "backtest_complete" => some .backtest_complete
  | "live_testing" => some .live_testing
  | "active" => some .active
  | "archived" => some .archived
  | "failed" => some .failed
  | _ => none

/-- From `src/data_models.py` (`class IndicatorType(Enum)`): supported
technical indicators for strategy generation. -/
inductive IndicatorType where
  | sma
  | ema
  | rsi
  | macd
  | bbands
  | atr
  | stoch
deriving DecidableEq, Repr

/-- The enum's string value, as in the source (`SMA = "sma"`, ...). -/
def IndicatorType.value : IndicatorType → String
  | .sma => "sma"
  | .ema => "ema"
  | .rsi => "rsi"
  | .macd => "macd"
  | .bbands => "bbands"
  | .atr => "atr"
  | .stoch => "stoch"

/-- Inverse lookup of `IndicatorType.value` (Python `IndicatorType(v)`). -/
def IndicatorType.fromValue : String → Option IndicatorType
  | "sma" => some .sma
  | "ema" => some .ema
  | "rsi" => some .rsi
  | "macd" => some .macd
  | "bbands" => some .bbands
  | "atr" => some .atr
  | "stoch" => some .stoch
  | _ => none

/-- A raw value supplied for an indicator parameter before validation: the
Python dict values are dynamically typed, so a caller may pass a numeric
value or something else (modelled by `other` with a descriptive tag). -/
inductive ParamValue where
  | num (q : Rat)
  | other (tag : String)
deriving DecidableEq, Repr

/-- Whether a raw parameter value is numeric. -/
def ParamValue.isNum : ParamValue → Bool
  | .num _ => true
  | .other _ => false

/-- From `src/data_models.py` (`@dataclass class TradingIndicator`):
individual technical indicator configuration.  Fields `type`,
`parameters : Dict[str, float]` (modelled as an association list of
name/value pairs) and `weight : float = 1.0` with its source default. -/
structure TradingIndicator where
  type : IndicatorType
  parameters : List (String × Rat)
  weight : Rat := 1
deriving DecidableEq, Repr

/-- The plain structured record produced by `TradingIndicator.to_dict`
(a Firestore-compatible dictionary with keys `type`, `parameters`,
`weight`). -/
structure IndicatorRecord where
  type : String
  parameters : List (String × Rat)
  weight : Rat
deriving DecidableEq, Repr

/-- From `src/data_models.py` (`TradingIndicator.to_dict`): convert to a
Firestore-compatible dictionary with the enum replaced by its value. -/
def TradingIndicator.to_dict (i : TradingIndicator) : IndicatorRecord :=
  { type := i.type.value, parameters := i.parameters, weight := i.weight }

/-- Modelled from the spec: `TradingIndicator.from_dict` — the source file
breaks off inside this classmethod, so its body is reconstructed from the
round-trip contract of §4.1: read the enum back from its string value and
restore the remaining fields; an unknown type string fails. -/
def TradingIndicator.from_dict (d : IndicatorRecord) : Option TradingIndicator :=
  (IndicatorType.fromValue d.type).map fun t =>
    { type := t, parameters := d.parameters, weight := d.weight }

/-- Modelled from the spec: the parameter names expected by each
`IndicatorType` (§3: "`parameters` keys must be the parameter names
expected by `type`", with examples "period length, threshold bands"; the
concrete names per type are not in the visible source, so conventional
ones are used — only their existence matters to the claims). -/
def requiredParams : IndicatorType → List String
  | .sma => ["period"]
  | .ema => ["period"]
  | .rsi => ["period"]
  | .macd => ["fast_period", "slow_period", "signal_period"]
  | .bbands => ["period", "std_dev"]
  | .atr => ["period"]
  | .stoch => ["k_period", "d_period"]

/-- Modelled from the spec: validating construction of a `TradingIndicator`
(§4.1 — the source file is truncated before any validation code).
Construction fails with a `ValidationError` if the raw parameters are
missing a required key for the type, or contain a non-numeric value, or
name a key the type does not expect; otherwise the indicator is built. -/
def mkTradingIndicator (t : IndicatorType) (raw : List (String × ParamValue))
    (weight : Rat := 1) : Except String TradingIndicator :=
  if (requiredParams t).all (fun k => ((raw.lookup k).map ParamValue.isNum).getD false) then
    if raw.all (fun kv => kv.2.isNum && decide (kv.1 ∈ requiredParams t)) then
      .ok { type := t,
            parameters := raw.filterMap fun kv =>
              match kv.2 with
              | .num q => some (kv.1, q)
              | .other _ => none,
            weight := weight }
    else .error "ValidationError"
  else .error "ValidationError"

/-- Modelled from the spec: the performance-metric bundle of a completed
backtest (§4.3 — "at minimum Sharpe ratio, profit factor, maximum drawdown,
sample size/number of trades").  Source field names use the `_ratio`
suffix; here `sharpe` abbreviates the Sharpe ratio. -/
structure PerformanceMetrics where
  sharpe : Rat
  profit_factor : Rat
  max_drawdown : Rat
  sample_size : Int
deriving DecidableEq, Repr

/-- Modelled from the spec: `Strategy` (§3 — the class is absent from the
truncated source file).  One genome: an ordered sequence of
`TradingIndicator`, a `StrategyStatus`, a generation number, lineage
references (parent identity hashes), and an optional metric bundle. -/
structure Strategy where
  indicators : List TradingIndicator
  status : StrategyStatus
  generation : Nat
  parent_ids : List String
  metrics : Option PerformanceMetrics
deriving DecidableEq, Repr

/-- Modelled from the spec: validating construction of a `Strategy` (§4.1):
construction fails with a `ValidationError` if the strategy has zero
indicators; every newly constructed genome starts in `GENERATED` (§4.2). -/
def mkStrategy (indicators : List TradingIndicator) (generation : Nat)
    (parent_ids : List String) : Except String Strategy :=
  if indicators.isEmpty then .error "ValidationError"
  else .ok { indicators := indicators, status := .generated,
             generation := generation, parent_ids := parent_ids,
             metrics := none }

/-- Canonical text of a rational parameter value (numerator and
denominator in lowest terms, unique per value). -/
def encodeRat (q : Rat) : String :=
  toString q.num ++ "/" ++ toString q.den

/-- Canonical text of a parameter association list, keys sorted
(the `sort_keys` canonicalization of a JSON dictionary). -/
def encodeParams (ps : List (String × Rat)) : String :=
  String.intercalate ";"
    ((List.insertionSort (fun a b => a ≤ b) (ps.map Prod.fst)).map
      fun k => k ++ "=" ++ ((ps.lookup k).map encodeRat).getD "")

/-- Canonical serialization of one indicator: its type value, then its
canonicalized parameters, then its weight. -/
def TradingIndicator.encode (i : TradingIndicator) : String :=
  i.type.value ++ "|" ++ encodeParams i.parameters ++ "|" ++ encodeRat i.weight

/-- Modelled from the spec: the strategy identity hash (§3, §4.1 — absent
from the truncated source).  It is computed over the canonicalized
(sorted-by-type-then-params) serialization of the indicator set.  The
concrete digest (e.g. sha256 of this string) maps equal canonical strings
to equal digests, so the digest is modelled by the canonical string
itself. -/
def Strategy.identity_hash (s : Strategy) : String :=
  String.intercalate ","
    (List.insertionSort (fun a b => a ≤ b)
      (s.indicators.map TradingIndicator.encode))

/-- Whether a lifecycle state is terminal (§4.2: `ARCHIVED` and `FAILED`). -/
def StrategyStatus.isTerminal : StrategyStatus → Bool
  | .archived => true
  | .failed => true
  | _ => false

/-- Modelled from the spec: the legal transition edges of the lifecycle
state machine (§4.2): `GENERATED → BACKTESTING → BACKTEST_COMPLETE →
{LIVE_TESTING, ARCHIVED, FAILED}`, `LIVE_TESTING → {ACTIVE, ARCHIVED,
FAILED}`, `ACTIVE → ARCHIVED`, and any non-terminal state → `FAILED`. -/
def legalTransition : StrategyStatus → StrategyStatus → Bool
  | .generated, .backtesting => true
  | .backtesting, .backtest_complete => true
  | .backtest_complete, .live_testing => true
  | .backtest_complete, .archived => true
  | .live_testing, .active => true
  | .live_testing, .archived => true
  | .active, .archived => true
  | s, .failed => !s.isTerminal
  | _, _ => false

/-- Modelled from the spec: attempt a lifecycle transition (§4.2).  A legal
edge produces the strategy with the new status; an illegal edge fails with
`InvalidStateTransition` and no new object. -/
def Strategy.transitionTo (s : Strategy) (new : StrategyStatus) :
    Except String Strategy :=
  if legalTransition s.status new then .ok { s with status := new }
  else .error "InvalidStateTransition"

/-- Modelled from the spec: the observable effect of a transition attempt on
the strategy's recorded state — on failure the recorded status (indeed the
whole strategy) is unchanged and the error is reported alongside. -/
def Strategy.tryTransition (s : Strategy) (new : StrategyStatus) :
    Strategy × Option String :=
  match s.transitionTo new with
  | .ok s2 => (s2, none)
  | .error e => (s, some e)

/-- From `src/aaee_config.py` (`@dataclass class AAEEConfig`): the AAEE
configuration dataclass with its source defaults.  Environment-derived
string defaults are taken at their fallback values; `float` fields are
`Rat`, `int` fields are `Int`.  The source's `min_sharpe_ratio` field is
named `min_sharpe` here. -/
structure AAEEConfig where
  firestore_project_id : String := "aaee-production"
  firestore_credentials_path : Option String := none
  initial_population_size : Int := 50
  max_generations : Int := 1000
  mutation_rate : Rat := 15/100
  crossover_rate : Rat := 65/100
  elite_size : Int := 5
  default_timeframe : String := "1h"
  data_lookback_days : Int := 90
  min_data_points : Int := 500
  rl_learning_rate : Rat := 1/1000
  rl_discount_factor : Rat := 95/100
  rl_episodes : Int := 1000
  max_position_size_pct : Rat := 1/10
  max_drawdown_pct : Rat := 25/100
  stop_loss_pct : Rat := 2/100
  min_sharpe : Rat := 1
  min_profit_factor : Rat := 3/2
  max_mdd_threshold : Rat := 15/100
  log_level : String := "INFO"
  log_file : String := "aaee_evolution.log"
  _validated : Bool := false
deriving DecidableEq, Repr

/-- From `src/aaee_config.py` (`AAEEConfig.validate`): validate
configuration parameters, in source order — empty project id, then
`mutation_rate` outside `[0,1]`, then `max_position_size_pct` outside
`(0,1]`, then `max_drawdown_pct` outside `(0,1]`; on success the config is
returned with `_validated` set (Python mutates `self`, modelled by
returning the updated value). -/
def AAEEConfig.validate (c : AAEEConfig) : Except String AAEEConfig :=
  if c.firestore_project_id = "" then
    .error "FIRESTORE_PROJECT_ID must be set"
  else if c.mutation_rate < 0 ∨ c.mutation_rate > 1 then
    .error "Mutation rate must be between 0 and 1"
  else if c.max_position_size_pct ≤ 0 ∨ c.max_position_size_pct > 1 then
    .error "Max position size must be between 0 and 1"
  else if c.max_drawdown_pct ≤ 0 ∨ c.max_drawdown_pct > 1 then
    .error "Max drawdown must be between 0 and 1"
  else
    .ok { c with _validated := true }

/-- From `src/aaee_config.py` (`config = AAEEConfig()`): the module-level
configuration singleton, all fields at their defaults. -/
def config : AAEEConfig := {}

/-- Modelled from the spec: the floor fitness value (§4.3, §7 — the minimum
possible fitness, assigned to failed strategies so they never win
selection). -/
def fitnessFloor : Rat := 0

/-- Modelled from the spec: normalization of an unbounded metric into
`(-1, 1)`, monotone increasing (a standard squashing map; the exact shape
is a configuration concern per §4.3). -/
def normalizeMetric (q : Rat) : Rat := q / (1 + |q|)

/-- Modelled from the spec: the scalar fitness of a completed metric bundle
(§4.3) — a weighted combination of normalized Sharpe ratio, profit factor
and an inverted drawdown penalty, clamped below at the floor. -/
def scoreOf (m : PerformanceMetrics) : Rat :=
  max fitnessFloor
    (normalizeMetric m.sharpe + normalizeMetric m.profit_factor
      + (1 - m.max_drawdown))

/-- Modelled from the spec: the boolean "meets minimum thresholds" flag
(§4.3), computed against the configured floors. -/
def meetsThresholds (cfg : AAEEConfig) (m : PerformanceMetrics) : Bool :=
  decide (m.sharpe ≥ cfg.min_sharpe)
    && decide (m.profit_factor ≥ cfg.min_profit_factor)
    && decide (m.max_drawdown ≤ cfg.max_mdd_threshold)

/-- The outcome of evaluating one strategy's backtest bundle. -/
structure EvalResult where
  status : StrategyStatus
  fitness : Rat
  reason : Option String
  meets_thresholds : Bool
deriving DecidableEq, Repr

/-- Modelled from the spec: the fitness evaluator (§4.3).  A bundle whose
sample size is below `min_data_points` marks the strategy `FAILED` with
reason "insufficient data" and the floor fitness, without computing a score
from the bundle; otherwise the strategy completes its backtest with the
weighted score and the threshold flag. -/
def evaluateFitness (cfg : AAEEConfig) (m : PerformanceMetrics) : EvalResult :=
  if m.sample_size < cfg.min_data_points then
    { status := .failed, fitness := fitnessFloor,
      reason := some "insufficient data", meets_thresholds := false }
  else
    { status := .backtest_complete, fitness := scoreOf m,
      reason := none, meets_thresholds := meetsThresholds cfg m }

/-- Replace the element at an index, if present (the Python idiom of
rebuilding a list with one element replaced). -/
def modifyIndicator (l : List TradingIndicator) (i : Nat)
    (f : TradingIndicator → TradingIndicator) : List TradingIndicator :=
  match l[i]? with
  | some a => l.set i (f a)
  | none => l

/-- Modelled from the spec: tweak one gene's parameters within a bounded
range (§4.4) — the first parameter value is shifted by `delta` and kept at
least 1 (periods and bands are positive). -/
def tweakParams (delta : Rat) (ind : TradingIndicator) : TradingIndicator :=
  { ind with parameters :=
      match ind.parameters with
      | [] => []
      | (k, v) :: rest => (k, max 1 (v + delta)) :: rest }

/-- Modelled from the spec: the four mutation moves of §4.4 — mutate one
gene's parameters, swap an indicator's type, add one indicator, or remove
one indicator. -/
inductive MutationChoice where
  | tweakParam (idx : Nat) (delta : Rat)
  | swapType (idx : Nat) (t : IndicatorType)
  | addIndicator (i : TradingIndicator)
  | removeIndicator (idx : Nat)
deriving DecidableEq, Repr

/-- Modelled from the spec: the mutation operator (§4.4).  It produces a new
strategy rather than editing in place; if the chosen move is removal and
removal would empty the strategy, the mutation is a no-op instead. -/
def mutateStrategy (s : Strategy) (c : MutationChoice) : Strategy :=
  match c with
  | .tweakParam idx delta =>
      { s with indicators := modifyIndicator s.indicators idx (tweakParams delta) }
  | .swapType idx t =>
      { s with indicators :=
          modifyIndicator s.indicators idx fun i => { i with type := t } }
  | .addIndicator i =>
      { s with indicators := s.indicators ++ [i] }
  | .removeIndicator idx =>
      if s.indicators.length ≤ 1 then s
      else { s with indicators := s.indicators.eraseIdx idx }

/-- Modelled from the spec: the explicit random source handle threaded
through every operator call (§4.4, §9 — never ambient or global). -/
structure RandState where
  seed : Nat
deriving DecidableEq, Repr

/-- One draw of the random source: a linear congruential step, returning
the drawn value and the advanced source. -/
def randNext (r : RandState) : Nat × RandState :=
  let n := (r.seed * 1103515245 + 12345) % 2147483648
  (n, ⟨n⟩)

/-- Decode an indicator type from a random draw. -/
def natToIndicatorType (n : Nat) : IndicatorType :=
  match n % 7 with
  | 0 => .sma
  | 1 => .ema
  | 2 => .rsi
  | 3 => .macd
  | 4 => .bbands
  | 5 => .atr
  | _ => .stoch

/-- A freshly generated indicator: random type, every required parameter
present with a small positive value, default weight. -/
def freshIndicator (tcode pcode : Nat) : TradingIndicator :=
  let t := natToIndicatorType tcode
  { type := t,
    parameters := (requiredParams t).map fun k => (k, ((pcode % 50 + 2 : Nat) : Rat)),
    weight := 1 }

/-- Modelled from the spec: generation-0 random strategies (§4.5
INITIALIZING), one indicator each, empty lineage, status `GENERATED`. -/
def randomStrategies : Nat → RandState → List Strategy × RandState
  | 0, r => ([], r)
  | n + 1, r =>
    let (a, r1) := randNext r
    let (b, r2) := randNext r1
    let s : Strategy :=
      { indicators := [freshIndicator a b], status := .generated,
        generation := 0, parent_ids := [], metrics := none }
    let (rest, r3) := randomStrategies n r2
    (s :: rest, r3)

/-- Modelled from the spec: deterministic crossover (§4.4) — split-point
recombination of the parents' indicator subsets; the child records both
parents and starts `GENERATED`. -/
def crossoverStrategies (a b : Strategy) (cut : Nat) (gen : Nat) : Strategy :=
  let k := cut % (a.indicators.length + 1)
  { indicators := a.indicators.take k ++ b.indicators.drop k,
    status := .generated, generation := gen,
    parent_ids := [a.identity_hash, b.identity_hash], metrics := none }

/-- Decode a mutation move from random draws. -/
def choiceOfNat (n spare : Nat) : MutationChoice :=
  match n % 4 with
  | 0 => .tweakParam spare 1
  | 1 => .swapType spare (natToIndicatorType n)
  | 2 => .addIndicator (freshIndicator n spare)
  | _ => .removeIndicator spare

/-- Modelled from the spec: the phases of the evolution loop's own state
machine (§4.5): INITIALIZING → EVALUATING → SELECTING → BREEDING →
REPLACING → (EVALUATING | TERMINATED). -/
inductive EvolutionPhase where
  | initializing
  | evaluating
  | selecting
  | breeding
  | replacing
  | terminated
deriving DecidableEq, Repr

/-- Modelled from the spec: the population manager's state (§4.5) — the
current phase, population, per-phase scratch data, the generation counter,
the history of generation populations, and the explicit random source. -/
structure EvolutionState where
  phase : EvolutionPhase
  population : List Strategy
  scored : List (Strategy × Rat)
  parents : List Strategy
  elites : List Strategy
  offspring : List Strategy
  generationNum : Nat
  history : List (List Strategy)
  rand : RandState
deriving DecidableEq, Repr

/-- Selection ranking (§4.4): higher fitness first; ties broken by lower
lineage depth (generation number) and then by lexicographically smaller
identity hash, for reproducibility. -/
def selectionRank (p q : Strategy × Rat) : Bool :=
  if p.2 = q.2 then
    if p.1.generation = q.1.generation then
      decide (p.1.identity_hash ≤ q.1.identity_hash)
    else decide (p.1.generation < q.1.generation)
  else decide (q.2 < p.2)

/-- INITIALIZING: generate the initial population from the random source. -/
def doInitPhase (cfg : AAEEConfig) (st : EvolutionState) : EvolutionState :=
  let (pop, r) := randomStrategies cfg.initial_population_size.toNat st.rand
  { st with population := pop, history := [pop], rand := r,
            phase := .evaluating }

/-- EVALUATING: score every member against its backtest bundle (§4.5), the
bundle supplied by the external backtest provider `bt`. -/
def doEvaluate (cfg : AAEEConfig) (bt : Strategy → PerformanceMetrics)
    (st : EvolutionState) : EvolutionState :=
  let scored := st.population.map fun s =>
    let r := evaluateFitness cfg (bt s)
    ({ s with status := r.status, metrics := some (bt s) }, r.fitness)
  { st with scored := scored, phase := .selecting }

/-- SELECTING: rank the scored population, keep the non-failed members as
the breeding pool and the top `elite_size` as elites (§4.4, §4.5). -/
def doSelect (cfg : AAEEConfig) (st : EvolutionState) : EvolutionState :=
  let ranked := List.insertionSort (fun a b => selectionRank a b = true) st.scored
  { st with
      parents := (ranked.filter fun p => p.1.status != .failed).map Prod.fst,
      elites := (ranked.map Prod.fst).take cfg.elite_size.toNat,
      phase := .breeding }

/-- BREEDING: produce `n` offspring from the parent pool, drawing parents,
the crossover decision, the split point and the mutation decision from the
explicit random source (§4.4). -/
def breedChildren (cfg : AAEEConfig) (parents : List Strategy) (gen : Nat) :
    Nat → RandState → List Strategy × RandState
  | 0, r => ([], r)
  | n + 1, r =>
    let (i, r1) := randNext r
    let (j, r2) := randNext r1
    let (k, r3) := randNext r2
    let (m, r4) := randNext r3
    match parents[i % max parents.length 1]?, parents[j % max parents.length 1]? with
    | some a, some b =>
      let child :=
        if ((k % 100 : Nat) : Rat) / 100 < cfg.crossover_rate then
          crossoverStrategies a b k gen
        else
          { a with status := .generated, generation := gen,
                   parent_ids := [a.identity_hash], metrics := none }
      let child2 :=
        if ((m % 100 : Nat) : Rat) / 100 < cfg.mutation_rate then
          mutateStrategy child (choiceOfNat m k)
        else child
      let (rest, r5) := breedChildren cfg parents gen n r4
      (child2 :: rest, r5)
    | _, _ =>
      let (rest, r5) := breedChildren cfg parents gen n r4
      (rest, r5)

/-- BREEDING phase step: fill the next generation beyond the elites. -/
def doBreed (cfg : AAEEConfig) (st : EvolutionState) : EvolutionState :=
  let (offs, r) := breedChildren cfg st.parents (st.generationNum + 1)
    (cfg.initial_population_size.toNat - cfg.elite_size.toNat) st.rand
  { st with offspring := offs, rand := r, phase := .replacing }

/-- REPLACING: the next generation is the elites carried over verbatim plus
the bred offspring; terminate when the generation budget is reached
(§4.5). -/
def doReplace (cfg : AAEEConfig) (st : EvolutionState) : EvolutionState :=
  let newPop := st.elites ++ st.offspring
  let g := st.generationNum + 1
  { st with population := newPop, history := st.history ++ [newPop],
            generationNum := g, scored := [], parents := [], elites := [],
            offspring := [],
            phase := if cfg.max_generations.toNat ≤ g then .terminated
                     else .evaluating }

/-- The initial manager state for a run: a fixed seed, no population yet. -/
def initState (seed : Nat) : EvolutionState :=
  { phase := .initializing, population := [], scored := [], parents := [],
    elites := [], offspring := [], generationNum := 0, history := [],
    rand := ⟨seed⟩ }

/-- Modelled from the spec: one step of the evolution loop (§4.5), as a
relation on manager states — each phase has exactly one applicable rule and
the successor state is a pure function of the configuration, the backtest
results and the current state (including its random source). -/
inductive EvolveStep (cfg : AAEEConfig) (bt : Strategy → PerformanceMetrics) :
    EvolutionState → EvolutionState → Prop where
  | init : ∀ st, st.phase = .initializing →
      EvolveStep cfg bt st (doInitPhase cfg st)
  | eval : ∀ st, st.phase = .evaluating →
      EvolveStep cfg bt st (doEvaluate cfg bt st)
  | select : ∀ st, st.phase = .selecting →
      EvolveStep cfg bt st (doSelect cfg st)
  | breed : ∀ st, st.phase = .breeding →
      EvolveStep cfg bt st (doBreed cfg st)
  | replace : ∀ st, st.phase = .replacing →
      EvolveStep cfg bt st (doReplace cfg st)

/-- `n` consecutive steps of the evolution loop. -/
inductive EvolveSteps (cfg : AAEEConfig) (bt : Strategy → PerformanceMetrics) :
    EvolutionState → Nat → EvolutionState → Prop where
  | refl : ∀ st, EvolveSteps cfg bt st 0 st
  | tail : ∀ st st1 st2 n, EvolveStep cfg bt st st1 →
      EvolveSteps cfg bt st1 n st2 → EvolveSteps cfg bt st (n + 1) st2

/-! ## Helper lemmas -/

theorem evolveStep_deterministic {cfg : AAEEConfig}
    {bt : Strategy → PerformanceMetrics} {s t1 t2 : EvolutionState}
    (h1 : EvolveStep cfg bt s t1) (h2 : EvolveStep cfg bt s t2) : t1 = t2 := by
  cases h1 <;> cases h2 <;> simp_all

theorem evolveSteps_deterministic {cfg : AAEEConfig}
    {bt : Strategy → PerformanceMetrics} :
    ∀ {n : Nat} {s t1 t2 : EvolutionState},
      EvolveSteps cfg bt s n t1 → EvolveSteps cfg bt s n t2 → t1 = t2 := by
  intro n
  induction n with
  | zero =>
    intro s t1 t2 h1 h2
    cases h1; cases h2; rfl
  | succ n ih =>
    intro s t1 t2 h1 h2
    cases h1 with
    | tail _ s1 _ _ hstep1 hrest1 =>
      cases h2 with
      | tail _ s2 _ _ hstep2 hrest2 =>
        cases evolveStep_deterministic hstep1 hstep2
        exact ih hrest1 hrest2

theorem indicatorType_value_roundtrip (t : IndicatorType) :
    IndicatorType.fromValue t.value = some t := by
  cases t <;> rfl

theorem strategyStatus_value_roundtrip (s : StrategyStatus) :
    StrategyStatus.fromValue s.value = some s := by
  cases s <;> rfl

/-! ## Claim theorems -/

/-- C1: constructing a `TradingIndicator` whose parameters are missing a
required key for its `IndicatorType` or contain a non-numeric value, or
constructing a `Strategy` with zero indicators, fails with a
`ValidationError`: for every such malformed input the constructor returns
an error and no object is produced. -/
theorem c1_construction_validation (t : IndicatorType)
    (raw : List (String × ParamValue)) (w : Rat) (g : Nat) (ps : List String)
    (hbad : (∃ k ∈ requiredParams t, raw.lookup k = none) ∨
            (∃ kv ∈ raw, kv.2.isNum = false)) :
    mkTradingIndicator t raw w = .error "ValidationError" ∧
      mkStrategy [] g ps = .error "ValidationError" := by
  refine ⟨?_, rfl⟩
  unfold mkTradingIndicator
  by_cases h1 : ((requiredParams t).all
      fun k => ((raw.lookup k).map ParamValue.isNum).getD false) = true
  · rw [if_pos h1]
    rcases hbad with ⟨k, hk, hnone⟩ | ⟨kv, hkv, hnum⟩
    · exfalso
      rw [List.all_eq_true] at h1
      have := h1 k hk
      rw [hnone] at this
      simp at this
    · have h2 : ¬ (raw.all
          fun kv => kv.2.isNum && decide (kv.1 ∈ requiredParams t)) = true := by
        rw [List.all_eq_true]
        intro hall
        have := hall kv hkv
        rw [hnum] at this
        simp at this
      rw [if_neg h2]
  · rw [if_neg h1]

theorem c1_construction_validation_witness :
    mkTradingIndicator .sma [("period", .other "null")] 1 = .error "ValidationError" ∧
      mkStrategy [] 0 [] = .error "ValidationError" :=
  c1_construction_validation .sma [("period", .other "null")] 1 0 []
    (Or.inr ⟨("period", .other "null"), by simp, rfl⟩)

/-- A configuration whose crossover rate is above 1 and whose size
parameters are all non-positive, with every field the source validator
does inspect left at its valid default. -/
def badRatesConfig : AAEEConfig :=
  { crossover_rate := 2, initial_population_size := -5, max_generations := 0,
    elite_size := -1, min_data_points := -100 }

/-- C2 counterexample: `AAEEConfig.validate` accepts a configuration whose
`crossover_rate` lies outside `[0,1]` and whose size parameters
(`initial_population_size`, `max_generations`, `elite_size`,
`min_data_points`) are all non-positive — the source validator never
inspects those fields, so validation succeeds where the claim says the run
must never begin. -/
theorem c2_counterexample :
    badRatesConfig.crossover_rate > 1 ∧
      badRatesConfig.initial_population_size ≤ 0 ∧
      badRatesConfig.max_generations ≤ 0 ∧
      badRatesConfig.elite_size ≤ 0 ∧
      badRatesConfig.min_data_points ≤ 0 ∧
      badRatesConfig.validate = .ok { badRatesConfig with _validated := true } := by
  refine ⟨by norm_num [badRatesConfig], by decide, by decide, by decide,
    by decide, ?_⟩
  unfold AAEEConfig.validate
  rw [if_neg (by decide), if_neg (by norm_num [badRatesConfig]),
    if_neg (by norm_num [badRatesConfig]), if_neg (by norm_num [badRatesConfig])]

/-- C2 (amended): of the claimed checks, only the `mutation_rate` one
exists — for every configuration whose `mutation_rate` lies outside
`[0,1]`, validation fails fast with an error (and `_validated` is never
set); `crossover_rate` and the size parameters are not checked. -/
theorem c2_validate_rate_failure (c : AAEEConfig)
    (h : c.mutation_rate < 0 ∨ c.mutation_rate > 1) :
    ∃ e, c.validate = .error e := by
  unfold AAEEConfig.validate
  by_cases h0 : c.firestore_project_id = ""
  · rw [if_pos h0]; exact ⟨_, rfl⟩
  · rw [if_neg h0, if_pos h]; exact ⟨_, rfl⟩

theorem c2_validate_rate_failure_witness :
    ∃ e, AAEEConfig.validate { mutation_rate := 2 } = .error e :=
  c2_validate_rate_failure { mutation_rate := 2 } (Or.inr (by decide))

/-- C3: two strategies built from the same multiset of indicator genes in
different orders have equal identity hashes — the hash is computed over the
canonicalized (sorted) serialization, so reordering indicators never
changes identity, whatever the remaining fields are. -/
theorem c3_identity_hash_perm_invariant (l1 l2 : List TradingIndicator)
    (st1 st2 : StrategyStatus) (g1 g2 : Nat) (p1 p2 : List String)
    (m1 m2 : Option PerformanceMetrics) (hperm : l1.Perm l2) :
    Strategy.identity_hash ⟨l1, st1, g1, p1, m1⟩ =
      Strategy.identity_hash ⟨l2, st2, g2, p2, m2⟩ := by
  unfold Strategy.identity_hash
  congr 1
  apply List.eq_of_perm_of_sorted (r := fun a b : String => a ≤ b)
  · exact (List.perm_insertionSort _ _).trans
      ((hperm.map _).trans (List.perm_insertionSort _ _).symm)
  · exact List.sorted_insertionSort _ _
  · exact List.sorted_insertionSort _ _

/-- A sample SMA gene used by concrete instances below. -/
def indSma : TradingIndicator :=
  { type := .sma, parameters := [("period", 14)], weight := 1 }

/-- A sample RSI gene used by concrete instances below. -/
def indRsi : TradingIndicator :=
  { type := .rsi, parameters := [("period", 7)], weight := 2 }

theorem c3_identity_hash_perm_invariant_witness :
    Strategy.identity_hash ⟨[indSma, indRsi], .generated, 0, [], none⟩ =
      Strategy.identity_hash ⟨[indRsi, indSma], .active, 3, ["p"], none⟩ :=
  c3_identity_hash_perm_invariant [indSma, indRsi] [indRsi, indSma]
    .generated .active 0 3 [] ["p"] none none (List.Perm.swap indRsi indSma [])

/-- C4: every attempted status transition off the legal edge set fails with
`InvalidStateTransition` and leaves the strategy's recorded state (hence
its status) unchanged; and no edge at all leaves the terminal states
`ARCHIVED` and `FAILED`. -/
theorem c4_illegal_transition_rejected (s : Strategy) (new : StrategyStatus)
    (h : legalTransition s.status new = false) :
    s.tryTransition new = (s, some "InvalidStateTransition") ∧
      (∀ b : StrategyStatus, legalTransition .archived b = false ∧
        legalTransition .failed b = false) := by
  constructor
  · unfold Strategy.tryTransition Strategy.transitionTo
    rw [if_neg (by rw [h]; exact Bool.false_ne_true)]
  · intro b
    cases b <;> exact ⟨rfl, rfl⟩

theorem c4_illegal_transition_rejected_witness :
    Strategy.tryTransition ⟨[indSma], .archived, 2, [], none⟩ .active =
        (⟨[indSma], .archived, 2, [], none⟩, some "InvalidStateTransition") ∧
      (∀ b : StrategyStatus, legalTransition .archived b = false ∧
        legalTransition .failed b = false) :=
  c4_illegal_transition_rejected ⟨[indSma], .archived, 2, [], none⟩ .active rfl

/-- The plain structured record of a whole strategy (per §4.1 and §6:
field name → primitive/mapping/sequence value). -/
structure StrategyRecord where
  indicators : List IndicatorRecord
  status : String
  generation : Nat
  parent_ids : List String
  metrics : Option PerformanceMetrics
deriving DecidableEq, Repr

/-- Modelled from the spec: `Strategy.to_dict` (§4.1 serialization
contract — absent from the truncated source): each indicator serialized by
`TradingIndicator.to_dict`, enums replaced by their values. -/
def Strategy.to_dict (s : Strategy) : StrategyRecord :=
  { indicators := s.indicators.map TradingIndicator.to_dict,
    status := s.status.value, generation := s.generation,
    parent_ids := s.parent_ids, metrics := s.metrics }

/-- Modelled from the spec: `Strategy.from_dict` (§4.1 rehydration from
the same record shape): every indicator and the status must parse back. -/
def Strategy.from_dict (d : StrategyRecord) : Option Strategy := do
  let inds ← d.indicators.mapM TradingIndicator.from_dict
  let st ← StrategyStatus.fromValue d.status
  pure { indicators := inds, status := st, generation := d.generation,
         parent_ids := d.parent_ids, metrics := d.metrics }

/-- A `TradingIndicator` that passed construction validation: its parameter
keys are exactly the names expected by its type (§3 invariant). -/
def TradingIndicator.wellFormed (i : TradingIndicator) : Prop :=
  i.parameters.map Prod.fst = requiredParams i.type

instance : DecidablePred TradingIndicator.wellFormed := fun i =>
  inferInstanceAs (Decidable (i.parameters.map Prod.fst = requiredParams i.type))

/-- A `Strategy` that passed construction validation: at least one
indicator, all of them well formed (§4.1). -/
def Strategy.wellFormed (s : Strategy) : Prop :=
  s.indicators ≠ [] ∧ ∀ i ∈ s.indicators, i.wellFormed

theorem from_dict_to_dict (i : TradingIndicator) :
    TradingIndicator.from_dict i.to_dict = some i := by
  unfold TradingIndicator.from_dict TradingIndicator.to_dict
  rw [indicatorType_value_roundtrip]
  rfl

theorem mapM_from_dict_map_to_dict : ∀ l : List TradingIndicator,
    (l.map TradingIndicator.to_dict).mapM TradingIndicator.from_dict = some l := by
  intro l
  induction l with
  | nil => rfl
  | cons a l ih =>
    simp only [List.map_cons, List.mapM_cons, from_dict_to_dict a, ih,
      Option.bind_eq_bind, Option.some_bind]
    rfl

/-- C5: serialize→deserialize is a fixed point — for every validly
constructed `TradingIndicator` and `Strategy`, deserializing the serialized
plain record yields the same value back (content equality, no information
loss). -/
theorem c5_serialization_roundtrip (i : TradingIndicator) (s : Strategy)
    (hi : i.wellFormed) (hs : s.wellFormed) :
    TradingIndicator.from_dict i.to_dict = some i ∧
      Strategy.from_dict s.to_dict = some s := by
  refine ⟨from_dict_to_dict i, ?_⟩
  unfold Strategy.from_dict Strategy.to_dict
  simp only [mapM_from_dict_map_to_dict, strategyStatus_value_roundtrip,
    Option.bind_eq_bind, Option.some_bind]
  rfl

theorem c5_serialization_roundtrip_witness :
    TradingIndicator.from_dict indSma.to_dict = some indSma ∧
      Strategy.from_dict (Strategy.to_dict ⟨[indSma, indRsi], .generated, 0, [], none⟩) =
        some ⟨[indSma, indRsi], .generated, 0, [], none⟩ :=
  c5_serialization_roundtrip indSma ⟨[indSma, indRsi], .generated, 0, [], none⟩
    rfl ⟨by simp, by decide⟩

/-- C6: a bundle whose sample size is below `min_data_points` makes the
evaluator mark the strategy `FAILED` with reason "insufficient data" and
the floor fitness, and the outcome never depends on the rest of the metric
bundle — any bundle with the same sample size evaluates identically. -/
theorem c6_insufficient_data_failed (cfg : AAEEConfig)
    (m : PerformanceMetrics) (h : m.sample_size < cfg.min_data_points) :
    evaluateFitness cfg m =
        { status := .failed, fitness := fitnessFloor,
          reason := some "insufficient data", meets_thresholds := false } ∧
      (∀ m2 : PerformanceMetrics, m2.sample_size = m.sample_size →
        evaluateFitness cfg m2 = evaluateFitness cfg m) := by
  constructor
  · unfold evaluateFitness
    rw [if_pos h]
  · intro m2 hm2
    unfold evaluateFitness
    rw [if_pos (by rw [hm2]; exact h), if_pos h]

theorem c6_insufficient_data_failed_witness :
    evaluateFitness config ⟨3, 9, 0, 10⟩ =
        { status := .failed, fitness := fitnessFloor,
          reason := some "insufficient data", meets_thresholds := false } ∧
      (∀ m2 : PerformanceMetrics, m2.sample_size = 10 →
        evaluateFitness config m2 = evaluateFitness config ⟨3, 9, 0, 10⟩) :=
  c6_insufficient_data_failed config ⟨3, 9, 0, 10⟩ (by decide)

/-- C7: the mutation operator never produces a zero-indicator strategy —
for every input strategy with at least one indicator and every mutation
move (removal included, which is a no-op when it would empty the
strategy), the output has at least one indicator. -/
theorem length_modifyIndicator (l : List TradingIndicator) (i : Nat)
    (f : TradingIndicator → TradingIndicator) :
    (modifyIndicator l i f).length = l.length := by
  unfold modifyIndicator
  cases hx : l[i]? <;> simp

theorem c7_mutation_never_empties (s : Strategy) (c : MutationChoice)
    (h : 1 ≤ s.indicators.length) :
    1 ≤ (mutateStrategy s c).indicators.length := by
  cases c with
  | tweakParam idx delta =>
    show 1 ≤ (modifyIndicator s.indicators idx (tweakParams delta)).length
    rw [length_modifyIndicator]
    exact h
  | swapType idx t =>
    show 1 ≤ (modifyIndicator s.indicators idx fun i =>
      { i with type := t }).length
    rw [length_modifyIndicator]
    exact h
  | addIndicator i =>
    show 1 ≤ (s.indicators ++ [i]).length
    simp only [List.length_append, List.length_cons, List.length_nil]
    omega
  | removeIndicator idx =>
    show 1 ≤ (if s.indicators.length ≤ 1 then s
      else { s with indicators := s.indicators.eraseIdx idx }).indicators.length
    by_cases hle : s.indicators.length ≤ 1
    · rw [if_pos hle]; exact h
    · rw [if_neg hle]
      show 1 ≤ (s.indicators.eraseIdx idx).length
      rw [List.length_eraseIdx]
      split <;> omega

theorem c7_mutation_never_empties_witness :
    1 ≤ (mutateStrategy ⟨[indSma], .generated, 0, [], none⟩
      (.removeIndicator 0)).indicators.length :=
  c7_mutation_never_empties ⟨[indSma], .generated, 0, [], none⟩
    (.removeIndicator 0) (by decide)

/-- C8: the evolution loop is deterministic — all operators are functions
of their inputs and the explicit random source, so two runs of any length
from the same seed, with identical configuration and identical backtest
results, reach the same state and in particular produce the identical
sequence of generation populations. -/
theorem c8_run_determinism (cfg : AAEEConfig)
    (bt : Strategy → PerformanceMetrics) (seed n : Nat)
    (t1 t2 : EvolutionState)
    (h1 : EvolveSteps cfg bt (initState seed) n t1)
    (h2 : EvolveSteps cfg bt (initState seed) n t2) :
    t1.history = t2.history ∧ t1 = t2 := by
  have heq := evolveSteps_deterministic h1 h2
  exact ⟨by rw [heq], heq⟩

theorem c8_run_determinism_witness :
    (doInitPhase config (initState 7)).history =
        (doInitPhase config (initState 7)).history ∧
      doInitPhase config (initState 7) = doInitPhase config (initState 7) :=
  c8_run_determinism config (fun _ => ⟨2, 2, 1/10, 1000⟩) 7 1 _ _
    (EvolveSteps.tail _ _ _ _ (EvolveStep.init _ rfl) (EvolveSteps.refl _))
    (EvolveSteps.tail _ _ _ _ (EvolveStep.init _ rfl) (EvolveSteps.refl _))

/-- C9: constructing a `TradingIndicator` without supplying a weight yields
weight 1.0 for every type and parameter mapping, and that default
round-trips through `to_dict` under the `weight` key. -/
theorem c9_default_weight (t : IndicatorType) (ps : List (String × Rat)) :
    ({ type := t, parameters := ps } : TradingIndicator).weight = 1 ∧
      ({ type := t, parameters := ps } : TradingIndicator).to_dict.weight = 1 :=
  ⟨rfl, rfl⟩

/-- The exact failure condition of `AAEEConfig.validate`, read off the
source: empty project id, `mutation_rate` outside `[0,1]`,
`max_position_size_pct` outside `(0,1]`, or `max_drawdown_pct` outside
`(0,1]`. -/
def validateFailCond (c : AAEEConfig) : Prop :=
  c.firestore_project_id = "" ∨ (c.mutation_rate < 0 ∨ c.mutation_rate > 1) ∨
    (c.max_position_size_pct ≤ 0 ∨ c.max_position_size_pct > 1) ∨
    (c.max_drawdown_pct ≤ 0 ∨ c.max_drawdown_pct > 1)

instance : DecidablePred validateFailCond := fun c => by
  unfold validateFailCond
  infer_instance

/-- C10: `AAEEConfig.validate` raises if and only if the project id is
empty, `mutation_rate` lies outside `[0,1]`, `max_position_size_pct` lies
outside `(0,1]`, or `max_drawdown_pct` lies outside `(0,1]`; in every other
case it succeeds and sets `_validated`.  The condition never inspects
`crossover_rate`, `elite_size`, `initial_population_size`,
`max_generations` or `min_data_points`, and `mutation_rate` exactly 0 or
exactly 1 never triggers the rate check. -/
theorem c10_validate_iff (c : AAEEConfig) :
    ((∃ e, c.validate = .error e) ↔ validateFailCond c) ∧
      (¬ validateFailCond c → c.validate = .ok { c with _validated := true }) ∧
      (∀ cr : Rat, ∀ es ip mg md : Int,
        validateFailCond { c with
          crossover_rate := cr, elite_size := es
          initial_population_size := ip, max_generations := mg
          min_data_points := md } ↔ validateFailCond c) ∧
      ((c.mutation_rate = 0 ∨ c.mutation_rate = 1) →
        ¬ (c.mutation_rate < 0 ∨ c.mutation_rate > 1)) := by
  refine ⟨?_, ?_, ?_, ?_⟩
  · unfold AAEEConfig.validate validateFailCond
    by_cases h1 : c.firestore_project_id = "" <;>
      by_cases h2 : c.mutation_rate < 0 ∨ c.mutation_rate > 1 <;>
      by_cases h3 : c.max_position_size_pct ≤ 0 ∨ c.max_position_size_pct > 1 <;>
      by_cases h4 : c.max_drawdown_pct ≤ 0 ∨ c.max_drawdown_pct > 1 <;>
      simp [h1, h2, h3, h4]
  · intro hok
    unfold validateFailCond at hok
    push_neg at hok
    obtain ⟨hA, ⟨hB1, hB2⟩, ⟨hC1, hC2⟩, hD1, hD2⟩ := hok
    unfold AAEEConfig.validate
    rw [if_neg hA, if_neg (by rintro (h | h) <;> linarith),
      if_neg (by rintro (h | h) <;> linarith),
      if_neg (by rintro (h | h) <;> linarith)]
  · intro cr es ip mg md
    unfold validateFailCond
    exact Iff.rfl
  · rintro (h0 | h0) <;> rw [h0] <;> rintro (hcon | hcon)
    · exact absurd hcon (by norm_num)
    · exact absurd hcon (by norm_num)
    · exact absurd hcon (by norm_num)
    · exact absurd hcon (by norm_num)

theorem c10_validate_iff_witness :
    config.validate = .ok { config with _validated := true } :=
  (c10_validate_iff config).2.1 (by
    norm_num [validateFailCond, config]
    decide)
